import Mathlib

/-!
Shallow embedding of `src/notion_sync.py`, a Notion-to-Markdown converter.

Modelling conventions:
* Python dicts for blocks become the `Block` structure below: `payload`
  models the type-keyed payload dict `block[block["type"]]` (absent key =
  `none`), and its optional fields model the payload's keys.
* Python exceptions (`KeyError`, `NameError`) become `Except String`.
* Network effects are abstracted into an `Env` of pure functions: the
  child-list fetch used by `convert_blocks_to_markdown`, the single-page
  fetch used by `get_toggle_content` (fallible, since its caller catches
  exceptions), and the HTTP GET used by `download_image`.
* Console diagnostics that the claims reference (the unknown-type warning,
  the unsupported-type notice, the toggle-fetch error log) are modelled as
  a `Diag` list threaded through results; pure progress prints are not
  modelled.
* Machine integers do not occur; all strings are exact.
-/

/-- One rich-text span: a record with a `plain_text` field. -/
structure RichText where
  plain_text : String
deriving DecidableEq

/-- The `icon` value inside a callout payload: either a dict whose `type`
is `"emoji"` (with an optional `emoji` key), or anything else. -/
inductive IconVal where
  | emojiDict (emoji : Option String)
  | nonEmoji
deriving DecidableEq

/-- The type-keyed payload dict of a block (`block[block["type"]]`).
Each field models the presence/absence of the corresponding key. -/
structure Payload where
  rich_text : Option (List RichText) := none
  icon : Option IconVal := none
  image_file_url : Option String := none
  image_external_url : Option String := none
deriving DecidableEq

/-- A Notion block object as used by the source: a `type` tag, an `id`,
a `has_children` flag, and the type-keyed payload (absent = `none`). -/
structure Block where
  type : String
  id : String := ""
  has_children : Bool := false
  payload : Option Payload := none
deriving DecidableEq

/-- Console diagnostics the source prints and the claims reference. -/
inductive Diag where
  | unknownWarn (btype : String)
  | unsupportedNotice (btype : String)
  | toggleFetchError (msg : String)
deriving DecidableEq

/-- An HTTP response for `requests.get`: status code and body bytes. -/
structure HttpResponse where
  status_code : Nat
  content : List Nat
deriving DecidableEq

/-- `BASE_DOCS_DIR = "docs"` -/
def BASE_DOCS_DIR : String := "docs"

/-- `IMAGE_DIR = "images"` -/
def IMAGE_DIR : String := "images"

/-- Python `s * n` on strings: `n` copies of `s` concatenated. -/
def strRepeat (s : String) (n : Nat) : String :=
  String.join (List.replicate n s)

/-- Helper for `pySplitlines`: walk the characters keeping the current
line reversed in `acc`; a piece after the final newline is kept only
when nonempty, matching Python. -/
def pySplitlinesAux : List Char → List Char → List String
  | [], acc => if acc.isEmpty then [] else [String.mk acc.reverse]
  | c :: cs, acc =>
    if c = '\n' then String.mk acc.reverse :: pySplitlinesAux cs []
    else pySplitlinesAux cs (c :: acc)

/-- Python `str.splitlines` restricted to `"\n"` separators (the only
line break the source ever produces): pieces between newlines, without
a final empty piece for a trailing newline; the empty string gives the
empty list. -/
def pySplitlines (s : String) : List String :=
  pySplitlinesAux s.data []

/-- Python `needle in hay` substring membership on strings. -/
def pyIn (needle hay : String) : Bool :=
  hay.toList.tails.any (fun t => needle.toList.isPrefixOf t)

/-- `extract_text` (src lines 112-119): join the spans' `plain_text`
fields; a falsy argument (`None` or the empty list) yields `""`. -/
def extract_text (rich_text_array : Option (List RichText)) : String :=
  match rich_text_array with
  | none => ""
  | some rts => if rts.isEmpty then "" else String.join (rts.map (·.plain_text))

/-- `get_icon` (src lines 50-64): read `block.get("callout", {})["icon"]`;
return its emoji when it is an emoji dict, else the default. -/
def get_icon (block : Block) : String :=
  let callout := if block.type = "callout" then block.payload.getD {} else {}
  match callout.icon with
  | some (IconVal.emojiDict e) => e.getD "💡"
  | _ => "💡"

/-- Direct dict indexing `block[block["type"]]["rich_text"]`: raises
`KeyError` when the payload or the `rich_text` key is absent. -/
def getPayloadRichText (block : Block) : Except String (List RichText) :=
  match block.payload with
  | none => Except.error "KeyError: type payload missing"
  | some p =>
    match p.rich_text with
    | none => Except.error "KeyError: rich_text missing"
    | some rts => Except.ok rts

/-- `handle_h1_block` (src lines 141-151). -/
def handle_h1_block (block : Block) : Except String String :=
  match getPayloadRichText block with
  | Except.error e => Except.error e
  | Except.ok rts => Except.ok ("\n## " ++ extract_text (some rts) ++ "\n\n")

/-- `handle_h2_block` (src lines 153-163). -/
def handle_h2_block (block : Block) : Except String String :=
  match getPayloadRichText block with
  | Except.error e => Except.error e
  | Except.ok rts => Except.ok ("\n### " ++ extract_text (some rts) ++ "\n\n")

/-- `handle_h3_block` (src lines 165-174). -/
def handle_h3_block (block : Block) : Except String String :=
  match getPayloadRichText block with
  | Except.error e => Except.error e
  | Except.ok rts => Except.ok ("\n#### " ++ extract_text (some rts) ++ "\n\n")

/-- `skip_keywords` from `handle_paragraph_block` (src line 187). -/
def skip_keywords : List String :=
  ["トップページに戻る", "トップページへ戻る", "TOPへ戻る", "目次へ戻る"]

/-- `handle_paragraph_block` (src lines 176-191): extract the text, drop
the paragraph when it contains a skip keyword, else text + blank line. -/
def handle_paragraph_block (block : Block) : Except String String :=
  match getPayloadRichText block with
  | Except.error e => Except.error e
  | Except.ok rts =>
    let text := extract_text (some rts)
    if skip_keywords.any (fun keyword => pyIn keyword text) then Except.ok ""
    else Except.ok (text ++ "\n\n")

/-- `handle_bulleted_list_item_block` (src lines 193-203). -/
def handle_bulleted_list_item_block (block : Block) : Except String String :=
  match getPayloadRichText block with
  | Except.error e => Except.error e
  | Except.ok rts => Except.ok ("* " ++ extract_text (some rts) ++ "\n")

/-- `handle_numbered_list_item_block` (src lines 205-218): always the
literal `1. ` marker. -/
def handle_numbered_list_item_block (block : Block) : Except String String :=
  match getPayloadRichText block with
  | Except.error e => Except.error e
  | Except.ok rts => Except.ok ("1. " ++ extract_text (some rts) ++ "\n")

/-- `handle_callout` (src lines 122-137): uses `.get` with defaults, so
it never raises. -/
def handle_callout (block : Block) : Except String String :=
  let callout := block.payload.getD {}
  let text := extract_text (some (callout.rich_text.getD []))
  let icon := get_icon block
  Except.ok ("> " ++ icon ++ " " ++ text ++ "\n")

/-- The `handlers` dict (src lines 222-232), as a lookup by type tag. -/
def handlers (t : String) : Option (Block → Except String String) :=
  if t = "heading_1" then some handle_h1_block
  else if t = "heading_2" then some handle_h2_block
  else if t = "heading_3" then some handle_h3_block
  else if t = "paragraph" then some handle_paragraph_block
  else if t = "bulleted_list_item" then some handle_bulleted_list_item_block
  else if t = "numbered_list_item" then some handle_numbered_list_item_block
  else if t = "callout" then some handle_callout
  else none

/-- `block_to_markdown` (src lines 234-266): dispatch on the type tag;
for an unregistered type, salvage a `rich_text` payload as a plain
paragraph with a warning, else return `""` with a notice. The second
component lists the diagnostics printed. -/
def block_to_markdown (block : Block) : Except String (String × List Diag) :=
  match handlers block.type with
  | some handler =>
    match handler block with
    | Except.error e => Except.error e
    | Except.ok md => Except.ok (md, [])
  | none =>
    let content := block.payload.getD {}
    match content.rich_text with
    | some rts =>
      Except.ok (extract_text (some rts) ++ "\n\n", [Diag.unknownWarn block.type])
    | none => Except.ok ("", [Diag.unsupportedNotice block.type])

/-- `handle_single_block` (src lines 268-308): same dispatch as
`block_to_markdown`, then prefix `"  " * depth` to every line of a
non-empty fragment (re-terminating each line with `"\n"`). -/
def handle_single_block (block : Block) (depth : Nat) :
    Except String (String × List Diag) :=
  let indent := strRepeat "  " depth
  let res : Except String (String × List Diag) :=
    match handlers block.type with
    | some handler =>
      match handler block with
      | Except.error e => Except.error e
      | Except.ok md => Except.ok (md, [])
    | none =>
      let content := block.payload.getD {}
      match content.rich_text with
      | some rts =>
        Except.ok (extract_text (some rts) ++ "\n\n", [Diag.unknownWarn block.type])
      | none => Except.ok ("", [Diag.unsupportedNotice block.type])
  match res with
  | Except.error e => Except.error e
  | Except.ok (md_content, diags) =>
    if md_content = "" then Except.ok ("", diags)
    else
      Except.ok
        (String.join ((pySplitlines md_content).map (fun line => indent ++ line ++ "\n")),
         diags)

/-- `download_image` (src lines 85-109): derive the filename from the
block id with a fixed `.png` extension; write the body bytes only when
the status code is exactly 200; always return `IMAGE_DIR/<id>.png`.
The result pairs the returned relative path with the file write performed
(target path and bytes), `none` when nothing was written.  The directory
creation and the `url` request are abstracted into the given response. -/
def download_image (url : String) (block_id : String) (response : HttpResponse) :
    String × Option (String × List Nat) :=
  let filename := block_id ++ ".png"
  let filepath := BASE_DOCS_DIR ++ "/" ++ IMAGE_DIR ++ "/" ++ filename
  let write :=
    if response.status_code = 200 then some (filepath, response.content) else none
  let _ := url
  (IMAGE_DIR ++ "/" ++ filename, write)

/-- The environment of external effects reaching the converter:
`children id` is the (assumed successful) `fetch_all_blocks` result for
`id`; `togglePage id` is the single-page child fetch that
`get_toggle_content` performs, fallible because its caller catches
exceptions; `http url` is the `requests.get` response. -/
structure Env where
  children : String → List Block
  togglePage : String → Except String (List Block)
  http : String → HttpResponse

/-- `image_block_to_markdown` (src lines 66-82): pick `file.url` when a
`file` key is present, else `external.url` (KeyError when neither),
download, and format the Markdown image line. -/
def image_block_to_markdown (env : Env) (block : Block) (alt_text : String) :
    Except String String :=
  match block.payload with
  | none => Except.error "KeyError: image payload missing"
  | some img =>
    let urlE : Except String String :=
      match img.image_file_url with
      | some u => Except.ok u
      | none =>
        match img.image_external_url with
        | some u => Except.ok u
        | none => Except.error "KeyError: external url missing"
    match urlE with
    | Except.error e => Except.error e
    | Except.ok url =>
      let relative_image_path := (download_image url block.id (env.http url)).1
      Except.ok ("![" ++ alt_text ++ "](" ++ relative_image_path ++ ")\n")

/-- Loop body of `get_toggle_content` (src lines 32-41).  Note the
source never resets `content`, so it accumulates ACROSS paragraph
children, and each nonempty running value is appended to the list.
Missing `paragraph`/`rich_text` keys raise, which the caller catches. -/
def get_toggle_content_loop :
    List Block → String → List String → Except String (List String)
  | [], _, acc => Except.ok acc
  | child :: rest, content, acc =>
    if child.type = "paragraph" then
      match child.payload with
      | none => Except.error "KeyError: paragraph payload missing"
      | some p =>
        match p.rich_text with
        | none => Except.error "KeyError: rich_text missing"
        | some rts =>
          let content2 := content ++ String.join (rts.map (·.plain_text))
          let acc2 := if content2 = "" then acc else acc ++ [content2]
          get_toggle_content_loop rest content2 acc2
    else get_toggle_content_loop rest content acc

/-- `get_toggle_content` (src lines 20-48): on any exception (fetch or
key lookup) log the error and return `""`; otherwise join the
accumulated texts with `"\n"`. Input is the outcome of the child fetch. -/
def get_toggle_content (fetchRes : Except String (List Block)) :
    String × List Diag :=
  match fetchRes with
  | Except.error e => ("", [Diag.toggleFetchError e])
  | Except.ok child_blocks =>
    match get_toggle_content_loop child_blocks "" [] with
    | Except.error e => ("", [Diag.toggleFetchError e])
    | Except.ok extracted_texts => (String.intercalate "\n" extracted_texts, [])

/-- One page of the paginated child-list API: `results`, `next_cursor`,
`has_more`, over an opaque cursor type. -/
structure PageResult (κ : Type) where
  results : List Block
  next_cursor : Option κ
  has_more : Bool

/-- The `while True` loop of `fetch_all_blocks` (src lines 323-332),
with a fuel bound standing in for termination of the loop; `none` means
the loop did not finish within the fuel. -/
def fetchLoop {κ : Type} (api : Option κ → PageResult κ) :
    Nat → Option κ → List Block → Option (List Block)
  | 0, _, _ => none
  | Nat.succ fuel, cursor, blocks =>
    let return_data := api cursor
    let blocks2 := blocks ++ return_data.results
    if return_data.has_more then fetchLoop api fuel return_data.next_cursor blocks2
    else some blocks2

/-- `fetch_all_blocks` (src lines 311-334): start with cursor `none` and
an empty accumulator. -/
def fetch_all_blocks {κ : Type} (api : Option κ → PageResult κ) (fuel : Nat) :
    Option (List Block) :=
  fetchLoop api fuel none []

/-- A well-behaved paginated API serving exactly the given nonempty page
sequence from the given cursor: each request returns the next page, with
`has_more` true exactly while pages remain, successive cursors following
`next_cursor`. -/
def Serves {κ : Type} (api : Option κ → PageResult κ) :
    Option κ → List (List Block) → Prop
  | _, [] => False
  | c, [p] => (api c).results = p ∧ (api c).has_more = false
  | c, p :: q :: ps =>
    (api c).results = p ∧ (api c).has_more = true ∧
      Serves api (api c).next_cursor (q :: ps)

/-- The sibling scan of `convert_blocks_to_markdown` (src lines
348-371), parameterised by the conversion used for a block's children.
The `alt_text` argument models the Python local variable of the same
name: `none` while still unassigned (so that reading it raises
`NameError`), updated when an image/toggle pair resolves its alt text.
The `skipThis` flag models the `skip_indices` set: the set only ever
receives index `i + 1` while the loop stands at index `i`, so it is
exactly a mark on the immediately following sibling; the lookahead reads
`rest.head?` without consuming it, matching the `i + 1 < len(block_list)`
check.  `depth` is threaded exactly as in the source, where the computed
`indent = "    " * depth` is never used and `handle_single_block` is
called without a depth argument (defaulting to 0). -/
def convertSiblings (env : Env)
    (convChildren : List Block → Nat → Except String (String × List Diag)) :
    List Block → Bool → Option String → Nat → Except String (String × List Diag)
  | [], _, _, _ => Except.ok ("", [])
  | block :: rest, skipThis, alt_text, depth =>
    if skipThis then convertSiblings env convChildren rest false alt_text depth
    else if block.type = "image" then
      let nextToggle : Option Block :=
        match rest.head? with
        | some next => if next.type = "toggle" then some next else none
        | none => none
      match nextToggle with
      | some next =>
        let altPair := get_toggle_content (env.togglePage next.id)
        match image_block_to_markdown env block altPair.1 with
        | Except.error e => Except.error e
        | Except.ok mdImg =>
          match convertSiblings env convChildren rest true (some altPair.1) depth with
          | Except.error e => Except.error e
          | Except.ok (mdR, lgR) => Except.ok (mdImg ++ mdR, altPair.2 ++ lgR)
      | none =>
        match alt_text with
        | none => Except.error "NameError: alt_text is not defined"
        | some alt =>
          match image_block_to_markdown env block alt with
          | Except.error e => Except.error e
          | Except.ok mdImg =>
            match convertSiblings env convChildren rest false alt_text depth with
            | Except.error e => Except.error e
            | Except.ok (mdR, lgR) => Except.ok (mdImg ++ mdR, lgR)
    else
      match handle_single_block block 0 with
      | Except.error e => Except.error e
      | Except.ok (mdB, lgB) =>
        if block.has_children then
          match convChildren (env.children block.id) (depth + 1) with
          | Except.error e => Except.error e
          | Except.ok (mdC, lgC) =>
            match convertSiblings env convChildren rest false alt_text depth with
            | Except.error e => Except.error e
            | Except.ok (mdR, lgR) =>
              Except.ok (mdB ++ mdC ++ mdR, lgB ++ lgC ++ lgR)
        else
          match convertSiblings env convChildren rest false alt_text depth with
          | Except.error e => Except.error e
          | Except.ok (mdR, lgR) => Except.ok (mdB ++ mdR, lgB ++ lgR)

/-- `convert_blocks_to_markdown`'s recursion (src lines 336-371) with a
fuel bound on the nesting depth of child fetches; each call frame starts
with its own unassigned `alt_text`. -/
def convertLoop (env : Env) :
    Nat → Option String → List Block → Nat → Except String (String × List Diag)
  | 0, _, _, _ => Except.error "recursion fuel exhausted"
  | Nat.succ fuel, alt_text, block_list, depth =>
    convertSiblings env (fun bs d => convertLoop env fuel none bs d)
      block_list false alt_text depth

/-- `convert_blocks_to_markdown` (src lines 336-371) as called from the
outside: the local `alt_text` starts unassigned. -/
def convert_blocks_to_markdown (env : Env) (fuel : Nat)
    (block_list : List Block) (depth : Nat) :
    Except String (String × List Diag) :=
  convertLoop env fuel none block_list depth

/-!  Concrete blocks and environments used by the theorems below. -/

/-- A paragraph block with a single rich-text span. -/
def paraBlockOf (i : String) (txt : String) : Block :=
  { type := "paragraph", id := i, payload := some { rich_text := some [⟨txt⟩] } }

/-- An environment with no children anywhere, every toggle fetch
returning an empty page, and every download succeeding. -/
def envEmpty : Env :=
  { children := fun _ => [], togglePage := fun _ => Except.ok [],
    http := fun _ => ⟨200, []⟩ }

/-- An image block with a `file.url` source. -/
def imgBlock (i : String) : Block :=
  { type := "image", id := i, payload := some { image_file_url := some "http://u" } }

/-- A bare toggle block. -/
def togBlock (i : String) : Block := { type := "toggle", id := i }

/-- Environment where toggle `t1` has one paragraph child reading `a`. -/
def envTog : Env :=
  { envEmpty with
    togglePage := fun t =>
      if t = "t1" then Except.ok [paraBlockOf "c1" "a"] else Except.ok [] }

/-- A paragraph block that declares children. -/
def parentPara : Block :=
  { type := "paragraph", id := "p1", has_children := true,
    payload := some { rich_text := some [⟨"p"⟩] } }

/-- Environment where block `p1` has one paragraph child reading `c`. -/
def envNest : Env :=
  { envEmpty with children := fun i => if i = "p1" then [paraBlockOf "c" "c"] else [] }

/-- A level-1 heading block reading `Intro`. -/
def headIntro : Block :=
  { type := "heading_1", id := "h1", payload := some { rich_text := some [⟨"Intro"⟩] } }

/-- An image block that declares children. -/
def imgKids : Block :=
  { type := "image", id := "i1", has_children := true,
    payload := some { image_file_url := some "http://u" } }

/-- Environment where block `i1` has one paragraph child reading `kid`. -/
def envKids : Env :=
  { envEmpty with children := fun i => if i = "i1" then [paraBlockOf "k" "kid"] else [] }

/-- Environment whose toggle-children fetch always fails with `e`. -/
def envFailToggle (e : String) : Env :=
  { envEmpty with togglePage := fun _ => Except.error e }

/-- An unregistered-type block carrying a `rich_text` payload
(the spec scenario for type `quote`). -/
def quoteBlock : Block :=
  { type := "quote", id := "q", payload := some { rich_text := some [⟨"wise words"⟩] } }

/-- An unregistered-type block with no `rich_text` in its payload. -/
def videoBlock : Block := { type := "video", id := "v" }

/-- A two-page child-list API over `Nat` cursors: first request returns
one block and points at cursor 1; the second returns two blocks and
reports no more pages. -/
def apiTwoPages : Option Nat → PageResult Nat := fun c =>
  match c with
  | none => ⟨[paraBlockOf "w1" "x"], some 1, true⟩
  | some _ => ⟨[paraBlockOf "w2" "y", paraBlockOf "w3" "z"], none, false⟩

/-- A paragraph block with an arbitrary rich-text array. -/
def mkParagraph (rts : List RichText) : Block :=
  { type := "paragraph", id := "p", payload := some { rich_text := some rts } }

/-!  Helper lemmas. -/

theorem string_join_append (l1 l2 : List String) :
    String.join (l1 ++ l2) = String.join l1 ++ String.join l2 := by
  apply String.ext
  simp [String.data_join, String.data_append]

theorem extract_text_eq_join (l : List RichText) :
    extract_text (some l) = String.join (l.map (·.plain_text)) := by
  cases l <;> rfl

/-!  Claim theorems. -/

/-- C10: `extract_text` is a monoid homomorphism from span sequences to
strings: extraction distributes over concatenation of sequences, a
singleton extracts to its span's plain text (in-order concatenation with
no separator), and an absent or empty sequence yields the empty string. -/
theorem extract_text_monoid_hom :
    (∀ a b : List RichText,
      extract_text (some (a ++ b)) = extract_text (some a) ++ extract_text (some b)) ∧
    (∀ r : RichText, extract_text (some [r]) = r.plain_text) ∧
    extract_text none = "" ∧ extract_text (some []) = "" := by
  refine ⟨?_, ?_, rfl, rfl⟩
  · intro a b
    rw [extract_text_eq_join, extract_text_eq_join, extract_text_eq_join,
      List.map_append, string_join_append]
  · intro r
    rw [extract_text_eq_join]
    apply String.ext
    simp [String.data_join]

/-- C7: `download_image` always returns the relative path
`images/<block_id>.png`, and a non-success HTTP response is not
distinguished from success: the same path is returned with no error
signalled, and no file is written on non-success. -/
theorem download_image_path_and_write (url block_id : String) (resp : HttpResponse) :
    (download_image url block_id resp).1 = IMAGE_DIR ++ "/" ++ block_id ++ ".png" ∧
    (resp.status_code ≠ 200 → (download_image url block_id resp).2 = none) := by
  constructor
  · rfl
  · intro h
    simp [download_image, h]

/-- Witness for C7 at a concrete failed download (status 404). -/
theorem download_image_path_and_write_witness :
    (download_image "http://u" "b1" ⟨404, []⟩).1 = IMAGE_DIR ++ "/" ++ "b1" ++ ".png" ∧
    (download_image "http://u" "b1" ⟨404, []⟩).2 = none :=
  ⟨(download_image_path_and_write "http://u" "b1" ⟨404, []⟩).1,
   (download_image_path_and_write "http://u" "b1" ⟨404, []⟩).2 (by decide)⟩

/-- C9: a block whose type has no registered handler is rendered by the
fallback: with a `rich_text` field in its type-keyed payload the
extracted text becomes a plain paragraph plus a diagnostic warning,
without one the result is empty plus a diagnostic notice; neither case
raises an error. -/
theorem unknown_type_fallback :
    (∀ (b : Block) (rts : List RichText), handlers b.type = none →
      (b.payload.getD {}).rich_text = some rts →
      block_to_markdown b =
        Except.ok (extract_text (some rts) ++ "\n\n", [Diag.unknownWarn b.type])) ∧
    (∀ b : Block, handlers b.type = none →
      (b.payload.getD {}).rich_text = none →
      block_to_markdown b = Except.ok ("", [Diag.unsupportedNotice b.type])) := by
  constructor
  · intro b rts h1 h2
    simp [block_to_markdown, h1, h2]
  · intro b h1 h2
    simp [block_to_markdown, h1, h2]

/-- Witness for C9: the spec scenario of unknown type `quote` with text,
and an unknown `video` block without text. -/
theorem unknown_type_fallback_witness :
    block_to_markdown quoteBlock =
      Except.ok ("wise words\n\n", [Diag.unknownWarn "quote"]) ∧
    block_to_markdown videoBlock =
      Except.ok ("", [Diag.unsupportedNotice "video"]) :=
  ⟨unknown_type_fallback.1 quoteBlock [⟨"wise words"⟩] rfl rfl,
   unknown_type_fallback.2 videoBlock rfl rfl⟩

/-- C8: a paragraph block renders as its extracted text plus a blank
line, except that text containing one of the configured return-to-top
phrases renders as the empty string, dropping the paragraph while the
surrounding blocks render normally (the spec scenario). -/
theorem paragraph_filter :
    (∀ rts : List RichText,
      (skip_keywords.any fun keyword => pyIn keyword (extract_text (some rts))) = true →
      handle_paragraph_block (mkParagraph rts) = Except.ok "") ∧
    (∀ rts : List RichText,
      (skip_keywords.any fun keyword => pyIn keyword (extract_text (some rts))) = false →
      handle_paragraph_block (mkParagraph rts) =
        Except.ok (extract_text (some rts) ++ "\n\n")) ∧
    convert_blocks_to_markdown envEmpty 9
      [headIntro, paraBlockOf "s" "トップページに戻る", paraBlockOf "g" "Hello"] 0 =
      Except.ok ("\n## Intro\n\nHello\n\n", []) := by
  refine ⟨?_, ?_, ?_⟩
  · intro rts h
    simp [handle_paragraph_block, mkParagraph, getPayloadRichText, h]
  · intro rts h
    simp [handle_paragraph_block, mkParagraph, getPayloadRichText, h]
  · rfl

/-- Witness for C8: a filtered phrase is dropped, a normal paragraph is
kept. -/
theorem paragraph_filter_witness :
    handle_paragraph_block (mkParagraph [⟨"TOPへ戻る"⟩]) = Except.ok "" ∧
    handle_paragraph_block (mkParagraph [⟨"Hello"⟩]) = Except.ok ("Hello" ++ "\n\n") :=
  ⟨paragraph_filter.1 [⟨"TOPへ戻る"⟩] rfl,
   paragraph_filter.2.1 [⟨"Hello"⟩] rfl⟩

/-- C2 (code bug): with two paragraph children reading `a` and `b`,
`get_toggle_content` returns `"a\nab"` — the `content` variable is never
reset, so entries are running concatenations rather than one extracted
text per paragraph child as the claim states (`"a\nb"`). -/
theorem toggle_content_accumulates :
    get_toggle_content
      (Except.ok [paraBlockOf "c1" "a", paraBlockOf "c2" "b"]) = ("a\nab", []) ∧
    ("a\nab" : String) ≠ "a\nb" := by
  refine ⟨?_, by decide⟩
  rfl

/-- C1 (code bug): an `image` block whose next sibling is absent or not
a toggle is NOT rendered with empty alt-text.  A lone image aborts with
`NameError` because `alt_text` was never assigned, and after an earlier
image/toggle pair the stale `alt_text` (here `"a"`) is reused for a
later unpaired image instead of `""`. -/
theorem unpaired_image_alt_text_bug :
    convert_blocks_to_markdown envEmpty 9 [imgBlock "i1"] 0 =
      Except.error "NameError: alt_text is not defined" ∧
    convert_blocks_to_markdown envTog 9 [imgBlock "i1", togBlock "t1", imgBlock "i2"] 0 =
      Except.ok ("![a](images/i1.png)\n![a](images/i2.png)\n", []) ∧
    ("![a](images/i1.png)\n![a](images/i2.png)\n" : String) ≠
      "![a](images/i1.png)\n![](images/i2.png)\n" := by
  refine ⟨?_, ?_, by decide⟩
  · rfl
  · rfl

/-- C3 (code bug): a non-image block nested at depth 1 is emitted with
no indentation: `convert_blocks_to_markdown` computes `indent` but never
uses it and calls `handle_single_block` without the depth, so the child
paragraph `c` appears unindented, although `handle_single_block` at
depth 1 would indent every line by one unit. -/
theorem nested_block_indentation_bug :
    convert_blocks_to_markdown envNest 9 [parentPara] 0 =
      Except.ok ("p\n\nc\n\n", []) ∧
    handle_single_block (paraBlockOf "c" "c") 1 = Except.ok ("  c\n  \n", []) ∧
    ("p\n\nc\n\n" : String) ≠ "p\n\n" ++ "  c\n  \n" := by
  refine ⟨?_, ?_, by decide⟩
  · rfl
  · rfl

/-- C6: when the toggle-children fetch fails with any error `e`,
`get_toggle_content` returns the empty string and logs a diagnostic,
and the conversion continues: the paired image still renders with empty
alt-text and the following paragraph renders normally. -/
theorem toggle_fetch_error_recovery (e : String) :
    get_toggle_content (Except.error e) = ("", [Diag.toggleFetchError e]) ∧
    convert_blocks_to_markdown (envFailToggle e) 9
      [imgBlock "i1", togBlock "t1", paraBlockOf "g" "after"] 0 =
      Except.ok ("![](images/i1.png)\nafter\n\n", [Diag.toggleFetchError e]) := by
  exact ⟨rfl, rfl⟩

/-- C4 counterexample: an `image` block with `has_children = true` does
NOT have its children fetched and appended — here the image's child
converts to `kid\n\n`, yet the output is only the image line. -/
theorem image_children_not_recursed :
    imgKids.has_children = true ∧
    convert_blocks_to_markdown envKids 9 [imgKids, togBlock "t9"] 0 =
      Except.ok ("![](images/i1.png)\n", []) ∧
    convert_blocks_to_markdown envKids 9 (envKids.children "i1") 1 =
      Except.ok ("kid\n\n", []) ∧
    ("![](images/i1.png)\n" : String) ≠ "![](images/i1.png)\n" ++ "kid\n\n" := by
  refine ⟨rfl, ?_, ?_, by decide⟩
  · rfl
  · rfl

/-- C4 amended: every non-image block that is processed on its own turn
(not consumed as a paired toggle) and has `has_children = true` has its
children fetched and converted at `depth + 1`, the result appended
immediately after the block's own fragment; image blocks never recurse
into children. -/
theorem non_image_children_appended (env : Env) (fuel : Nat) (alt : Option String)
    (b : Block) (rest : List Block) (depth : Nat)
    (hType : b.type ≠ "image") (hCh : b.has_children = true)
    (mdB : String) (lgB : List Diag)
    (hB : handle_single_block b 0 = Except.ok (mdB, lgB))
    (mdC : String) (lgC : List Diag)
    (hC : convert_blocks_to_markdown env fuel (env.children b.id) (depth + 1) =
      Except.ok (mdC, lgC))
    (mdR : String) (lgR : List Diag)
    (hR : convertLoop env (fuel + 1) alt rest depth = Except.ok (mdR, lgR)) :
    convertLoop env (fuel + 1) alt (b :: rest) depth =
      Except.ok (mdB ++ mdC ++ mdR, lgB ++ lgC ++ lgR) := by
  have hC2 : convertLoop env fuel none (env.children b.id) (depth + 1) =
      Except.ok (mdC, lgC) := hC
  have hR2 : convertSiblings env (fun bs d => convertLoop env fuel none bs d)
      rest false alt depth = Except.ok (mdR, lgR) := hR
  show convertSiblings env (fun bs d => convertLoop env fuel none bs d)
      (b :: rest) false alt depth =
    Except.ok (mdB ++ mdC ++ mdR, lgB ++ lgC ++ lgR)
  simp [convertSiblings, hType, hCh, hB, hC2, hR2]

/-- Witness for C4 amended: the nested-paragraph example. -/
theorem non_image_children_appended_witness :
    convertLoop envNest 2 none [parentPara] 0 =
      Except.ok ("p\n\n" ++ "c\n\n" ++ "", [] ++ [] ++ []) :=
  non_image_children_appended envNest 1 none parentPara [] 0 (by decide) rfl
    "p\n\n" [] rfl "c\n\n" [] rfl "" [] rfl

theorem fetchLoop_serves {κ : Type} (api : Option κ → PageResult κ) :
    ∀ (pages : List (List Block)) (c : Option κ) (acc : List Block) (fuel : Nat),
      Serves api c pages → pages.length ≤ fuel →
      fetchLoop api fuel c acc = some (acc ++ pages.flatten) := by
  intro pages
  induction pages with
  | nil => intro c acc fuel hS _; exact absurd hS (by simp [Serves])
  | cons p ps ih =>
    intro c acc fuel hS hF
    cases ps with
    | nil =>
      obtain ⟨hres, hmore⟩ := hS
      obtain ⟨f, rfl⟩ : ∃ f, fuel = f + 1 := by
        cases fuel with
        | zero => exact absurd hF (by simp)
        | succ f => exact ⟨f, rfl⟩
      simp [fetchLoop, hres, hmore]
    | cons q ps2 =>
      obtain ⟨hres, hmore, hrest⟩ := hS
      obtain ⟨f, rfl⟩ : ∃ f, fuel = f + 1 := by
        cases fuel with
        | zero => exact absurd hF (by simp)
        | succ f => exact ⟨f, rfl⟩
      have hF2 : (q :: ps2).length ≤ f := by
        simpa [Nat.succ_le_succ_iff] using hF
      have := ih (api c).next_cursor (acc ++ p) f hrest hF2
      simp [fetchLoop, hmore, hres, this]

/-- C5: for every well-behaved paginated child-list API — one serving a
fixed sequence of pages where each request returns the next page in
cursor order with `has_more` true exactly while pages remain —
`fetch_all_blocks` returns exactly the concatenation of all pages in
order, regardless of the number of pages or their sizes (fuel at least
the page count stands in for loop termination). -/
theorem fetch_all_blocks_complete {κ : Type} (api : Option κ → PageResult κ)
    (pages : List (List Block)) (fuel : Nat)
    (hServes : Serves api none pages) (hFuel : pages.length ≤ fuel) :
    fetch_all_blocks api fuel = some pages.flatten := by
  have h := fetchLoop_serves api pages none [] fuel hServes hFuel
  simpa [fetch_all_blocks] using h

/-- Witness for C5: the concrete two-page API is well-behaved and the
fetcher assembles all three blocks in order. -/
theorem fetch_all_blocks_complete_witness :
    fetch_all_blocks apiTwoPages 2 =
      some (([[paraBlockOf "w1" "x"],
              [paraBlockOf "w2" "y", paraBlockOf "w3" "z"]] :
        List (List Block)).flatten) :=
  fetch_all_blocks_complete apiTwoPages
    [[paraBlockOf "w1" "x"], [paraBlockOf "w2" "y", paraBlockOf "w3" "z"]] 2
    ⟨rfl, rfl, rfl, rfl⟩ (by decide)
